import Mathlib

/-!
Verification of the swapchain-management and frame-scheduling core of the
VulkanApp repository (src/VulkanApp.cpp), via a shallow embedding in Lean.

The embedding translates the relevant C++ functions into executable Lean
definitions:
  * `swapchainRequestedImageCount` — the image-count computation in
    `VulkanApp::createSwapchain` (lines 270-279);
  * `chooseSwapchainExtent` — `VulkanApp::chooseSwapchainExtent` (980-1009);
  * `chooseSwapchainSurfaceFormat` / `chooseSwapchainPresentMode` (945-978);
  * `drawFrame` — the per-iteration frame-scheduler state machine
    `VulkanApp::drawFrame` (780-881), as a pure function from a scheduler
    state and the driver-reported results to an event trace and a new state;
  * `recreateSwapchainTrace` / `cleanupSwapchain` — the recreation sequence
    `VulkanApp::recreateSwapchain` (886-914) and
    `VulkanApp::cleanupSwapchain` (916-934), as event traces;
  * `createSyncObjectsS` / `recreateSwapchainS` — the sizing of the
    `imagesInFlight` tracking array (`createSyncObjects`, 757-776) and the
    fact that recreation never touches it.
-/

namespace VulkanApp

/-- UINT32_MAX, the sentinel used by `chooseSwapchainExtent` for an
undefined current extent, and the modulus of uint32 arithmetic. -/
def UINT32_MAX : Nat := 4294967295

/-- MAX_CONCURRENT_FRAMES = 2 (VulkanApp.hpp line 1371): the Frame Slot
count. -/
def MAX_CONCURRENT_FRAMES : Nat := 2

/-- vk::Extent2D: a width/height pair (uint32 components modelled as Nat). -/
structure Extent2D where
  width : Nat
  height : Nat
deriving DecidableEq, Repr

/-- The fields of vk::SurfaceCapabilitiesKHR consulted by
`createSwapchain` and `chooseSwapchainExtent`. -/
structure SurfaceCapabilitiesKHR where
  minImageCount : Nat
  maxImageCount : Nat
  currentExtent : Extent2D
  minImageExtent : Extent2D
  maxImageExtent : Extent2D
deriving DecidableEq, Repr

/-- The image count requested by `VulkanApp::createSwapchain`
(VulkanApp.cpp 270-279):

    uint32_t imageCount = properties.surfaceCapabilities.minImageCount + 1;
    if (properties.surfaceCapabilities.maxImageCount > 0 &&
        imageCount > properties.surfaceCapabilities.maxImageCount) {
        imageCount = properties.surfaceCapabilities.maxImageCount;
    }

uint32 addition is taken mod 2^32. -/
def swapchainRequestedImageCount (caps : SurfaceCapabilitiesKHR) : Nat :=
  let imageCount := (caps.minImageCount + 1) % (UINT32_MAX + 1)
  if caps.maxImageCount > 0 ∧ imageCount > caps.maxImageCount then
    caps.maxImageCount
  else
    imageCount

/-- std::clamp(v, lo, hi) as used on uint32 values: returns lo if v < lo,
else hi if hi < v, else v. -/
def stdClamp (v lo hi : Nat) : Nat :=
  if v < lo then lo else if hi < v then hi else v

/-- `VulkanApp::chooseSwapchainExtent` (VulkanApp.cpp 980-1009).  If the
surface's currentExtent.width is not UINT32_MAX the current extent is
returned unchanged; otherwise the window's framebuffer pixel size
(`fbWidth`, `fbHeight`, from glfwGetFramebufferSize) is clamped
componentwise into [minImageExtent, maxImageExtent]. -/
def chooseSwapchainExtent (caps : SurfaceCapabilitiesKHR)
    (fbWidth fbHeight : Nat) : Extent2D :=
  if caps.currentExtent.width ≠ UINT32_MAX then
    caps.currentExtent
  else
    { width := stdClamp fbWidth caps.minImageExtent.width
        caps.maxImageExtent.width,
      height := stdClamp fbHeight caps.minImageExtent.height
        caps.maxImageExtent.height }

/-- Vulkan enum value VK_FORMAT_B8G8R8A8_SRGB. -/
def eB8G8R8A8Srgb : Nat := 50

/-- Vulkan enum value VK_COLOR_SPACE_SRGB_NONLINEAR_KHR. -/
def eSrgbNonlinear : Nat := 0

/-- Vulkan enum value VK_PRESENT_MODE_MAILBOX_KHR. -/
def eMailbox : Nat := 1

/-- Vulkan enum value VK_PRESENT_MODE_FIFO_KHR. -/
def eFifo : Nat := 2

/-- vk::SurfaceFormatKHR: a pixel format together with a color space. -/
structure SurfaceFormatKHR where
  format : Nat
  colorSpace : Nat
deriving DecidableEq, Repr

/-- `VulkanApp::chooseSwapchainSurfaceFormat` (VulkanApp.cpp 945-960):
return the first supported format equal to (B8G8R8A8 sRGB, sRGB
nonlinear); if none matches, return surfaceFormats[0].  The C++ indexes
[0] unconditionally; the empty-list case (undefined behaviour in the
source, ruled out by device selection) is modelled as `none`. -/
def chooseSwapchainSurfaceFormat (surfaceFormats : List SurfaceFormatKHR) :
    Option SurfaceFormatKHR :=
  match surfaceFormats.find? (fun sf =>
      sf.format == eB8G8R8A8Srgb && sf.colorSpace == eSrgbNonlinear) with
  | some sf => some sf
  | none => surfaceFormats.head?

/-- `VulkanApp::chooseSwapchainPresentMode` (VulkanApp.cpp 962-978):
return the first supported mode equal to mailbox; else FIFO. -/
def chooseSwapchainPresentMode (presentModes : List Nat) : Nat :=
  match presentModes.find? (fun m => m == eMailbox) with
  | some m => m
  | none => eFifo

/-- The vk::Result values distinguished by `drawFrame`: success,
suboptimal, out-of-date, and any other (error) result. -/
inductive VkResult where
  | success
  | suboptimalKHR
  | errorOutOfDateKHR
  | otherError
deriving DecidableEq, Repr

/-- Observable actions of one `drawFrame` iteration (VulkanApp.cpp
780-881), in program order.  `waitFence slot` is a blocking
vkWaitForFences on inFlightFences[slot]; `acquireImage slot` is the
acquireNextImageKHR call using imageAvailableSemaphores[slot];
`submitCmd image slot` submits commandBuffers[image] with
inFlightFences[slot] as the completion fence. -/
inductive Ev where
  | waitFence (slot : Nat)
  | acquireImage (slot : Nat)
  | recreateSwapchain
  | throwResultException
  | resetFence (slot : Nat)
  | submitCmd (image : Nat) (slot : Nat)
  | presentImage (image : Nat)
deriving DecidableEq, Repr

/-- The scheduler state mutated by `drawFrame`.  `inFlightFences` holds
the signaled-state of each Frame Slot's completion fence
(MAX_CONCURRENT_FRAMES entries); `imagesInFlight` holds, per swapchain
image, the Frame Slot whose fence last wrote it (`none` = the null
handle it was initialised to).  Fence handles in the source only ever
come from the inFlightFences array (createSyncObjects, 771-775), so a
handle is represented by its slot index. -/
structure FrameState where
  currentFrame : Nat
  inFlightFences : List Bool
  imagesInFlight : List (Option Nat)
  framebufferResized : Bool
deriving DecidableEq, Repr

/-- One iteration of `VulkanApp::drawFrame` (VulkanApp.cpp 780-881) as a
pure function.  The driver's choices are inputs: `acqRes`/`imageIndex`
are the result and image index of acquireNextImageKHR, `presRes` the
result of presentKHR.  A blocking fence wait is modelled as the
`waitFence` event followed by that fence being signaled in the state
(the wait returns only once the fence signals).  Returns the event
trace of the iteration and the post-state. -/
def drawFrame (s : FrameState) (acqRes : VkResult) (imageIndex : Nat)
    (presRes : VkResult) : List Ev × FrameState :=
  -- device.waitForFences(inFlightFences[currentFrame], VK_TRUE, UINT64_MAX)
  let f := s.currentFrame
  let s1 : FrameState := { s with inFlightFences := s.inFlightFences.set f true }
  let tr1 : List Ev := [Ev.waitFence f, Ev.acquireImage f]
  if acqRes = VkResult.errorOutOfDateKHR then
    -- recreateSwapchain(); return;
    (tr1 ++ [Ev.recreateSwapchain], s1)
  else if acqRes ≠ VkResult.success ∧ acqRes ≠ VkResult.suboptimalKHR then
    -- vk::throwResultException(result, ...)
    (tr1 ++ [Ev.throwResultException], s1)
  else
    -- if (imagesInFlight[imageIndex]) waitForFences(imagesInFlight[imageIndex], ...)
    let hazard := s1.imagesInFlight.getD imageIndex none
    let tr2 := tr1 ++ match hazard with
      | some slot => [Ev.waitFence slot]
      | none => []
    let s2 : FrameState := match hazard with
      | some slot => { s1 with inFlightFences := s1.inFlightFences.set slot true }
      | none => s1
    -- imagesInFlight[imageIndex] = inFlightFences[currentFrame];
    let s3 : FrameState :=
      { s2 with imagesInFlight := s2.imagesInFlight.set imageIndex (some f) }
    -- device.resetFences(inFlightFences[currentFrame]);
    -- graphicsQueue.submit(submitInfo, inFlightFences[currentFrame]);
    -- presentQueue.presentKHR(presentInfo);
    let s4 : FrameState := { s3 with inFlightFences := s3.inFlightFences.set f false }
    let tr3 := tr2 ++ [Ev.resetFence f, Ev.submitCmd imageIndex f,
      Ev.presentImage imageIndex]
    if presRes = VkResult.errorOutOfDateKHR ∨ presRes = VkResult.suboptimalKHR ∨
        s4.framebufferResized then
      -- framebufferResized = false; recreateSwapchain(); return;
      (tr3 ++ [Ev.recreateSwapchain], { s4 with framebufferResized := false })
    else if presRes ≠ VkResult.success then
      (tr3 ++ [Ev.throwResultException], s4)
    else
      -- currentFrame = (currentFrame + 1) % MAX_CONCURRENT_FRAMES;
      (tr3, { s4 with currentFrame := (s4.currentFrame + 1) % MAX_CONCURRENT_FRAMES })

/-- Observable actions of `VulkanApp::recreateSwapchain` (886-914) and
`VulkanApp::cleanupSwapchain` (916-934), in program order. -/
inductive REv where
  | getFramebufferSize (w h : Nat)
  | waitEvents
  | deviceWaitIdle
  | destroyFramebuffer
  | freeCommandBuffers
  | destroyPipeline
  | destroyPipelineLayout
  | destroyRenderPass
  | destroyImageView
  | destroySwapchainKHR
  | createSwapchain
  | createImageViews
  | createRenderPass
  | createGraphicsPipeline
  | createFramebuffers
  | createCommandBuffers
deriving DecidableEq, Repr

/-- `VulkanApp::cleanupSwapchain` (916-934) as an event trace: destroy
each framebuffer, free the command buffers, destroy pipeline, pipeline
layout and render pass, destroy each image view, destroy the swapchain. -/
def cleanupSwapchain (numFramebuffers numImageViews : Nat) : List REv :=
  List.replicate numFramebuffers REv.destroyFramebuffer ++
    [REv.freeCommandBuffers, REv.destroyPipeline, REv.destroyPipelineLayout,
      REv.destroyRenderPass] ++
    List.replicate numImageViews REv.destroyImageView ++
    [REv.destroySwapchainKHR]

/-- The minimization-wait loop of `recreateSwapchain` (888-893) after its
initial glfwGetFramebufferSize call.  `sizes k` is the result of the
k-th glfwGetFramebufferSize call; the loop body re-polls and then calls
glfwWaitEvents while the last polled size has a zero component.  `fuel`
bounds the number of loop iterations modelled; if every polled size
within the fuel is zero the loop has not terminated and the result is
`none`. -/
def pollLoop (sizes : Nat → Nat × Nat) : Nat → Nat → Option (List REv)
  | 0, k =>
    if (sizes k).1 = 0 ∨ (sizes k).2 = 0 then none else some []
  | fuel + 1, k =>
    if (sizes k).1 = 0 ∨ (sizes k).2 = 0 then
      (pollLoop sizes fuel (k + 1)).map (fun tr =>
        REv.getFramebufferSize (sizes (k + 1)).1 (sizes (k + 1)).2 ::
          REv.waitEvents :: tr)
    else
      some []

/-- `VulkanApp::recreateSwapchain` (886-914) as an event trace: poll the
framebuffer size and block while it has a zero component, wait for the
device to go idle, destroy the swapchain group, then rebuild swapchain,
image views, render pass, graphics pipeline, framebuffers and command
buffers in that order.  `numFramebuffers`/`numImageViews` are the sizes
of the vectors the cleanup loops iterate over. -/
def recreateSwapchainTrace (sizes : Nat → Nat × Nat) (fuel : Nat)
    (numFramebuffers numImageViews : Nat) : Option (List REv) :=
  (pollLoop sizes fuel 0).map (fun pollTr =>
    REv.getFramebufferSize (sizes 0).1 (sizes 0).2 :: pollTr ++
      [REv.deviceWaitIdle] ++
      cleanupSwapchain numFramebuffers numImageViews ++
      [REv.createSwapchain, REv.createImageViews, REv.createRenderPass,
        REv.createGraphicsPipeline, REv.createFramebuffers,
        REv.createCommandBuffers])

/-- The application state relevant to the sizing of the `imagesInFlight`
array: the current swapchain image count (`swapchainImages.size()`) and
the per-image fence-tracking array itself. -/
structure AppSync where
  swapchainImageCount : Nat
  imagesInFlight : List (Option Nat)
deriving DecidableEq, Repr

/-- `VulkanApp::createSyncObjects` (757-776), restricted to its effect on
`imagesInFlight`: `imagesInFlight.resize(swapchainImages.size(), nullptr)`
on the initially empty vector fills it with null handles, one per current
swapchain image.  It is called once, from initVulkan, never from
recreateSwapchain. -/
def createSyncObjectsS (s : AppSync) : AppSync :=
  { s with imagesInFlight := List.replicate s.swapchainImageCount none }

/-- `VulkanApp::recreateSwapchain` (886-914), restricted to its effect on
the swapchain image count and `imagesInFlight`: createSwapchain
repopulates `swapchainImages` (giving a possibly different image count,
`newCount`), and none of the six rebuild calls touches `imagesInFlight`. -/
def recreateSwapchainS (newCount : Nat) (s : AppSync) : AppSync :=
  { s with swapchainImageCount := newCount }

/-- The submit-and-present path of `drawFrame` (the code from line 822 on,
reached when acquireNextImageKHR returned eSuccess or eSuboptimalKHR):
textually the final else-branch of `drawFrame`. -/
def drawFrameSubmitPath (s : FrameState) (imageIndex : Nat)
    (presRes : VkResult) : List Ev × FrameState :=
  let f := s.currentFrame
  let s1 : FrameState := { s with inFlightFences := s.inFlightFences.set f true }
  let tr1 : List Ev := [Ev.waitFence f, Ev.acquireImage f]
  let hazard := s1.imagesInFlight.getD imageIndex none
  let tr2 := tr1 ++ match hazard with
    | some slot => [Ev.waitFence slot]
    | none => []
  let s2 : FrameState := match hazard with
    | some slot => { s1 with inFlightFences := s1.inFlightFences.set slot true }
    | none => s1
  let s3 : FrameState :=
    { s2 with imagesInFlight := s2.imagesInFlight.set imageIndex (some f) }
  let s4 : FrameState := { s3 with inFlightFences := s3.inFlightFences.set f false }
  let tr3 := tr2 ++ [Ev.resetFence f, Ev.submitCmd imageIndex f,
    Ev.presentImage imageIndex]
  if presRes = VkResult.errorOutOfDateKHR ∨ presRes = VkResult.suboptimalKHR ∨
      s4.framebufferResized then
    (tr3 ++ [Ev.recreateSwapchain], { s4 with framebufferResized := false })
  else if presRes ≠ VkResult.success then
    (tr3 ++ [Ev.throwResultException], s4)
  else
    (tr3, { s4 with currentFrame := (s4.currentFrame + 1) % MAX_CONCURRENT_FRAMES })

/-- A scheduler state as produced by `createSyncObjects` for a swapchain
with 3 images: Frame Slot 0 current, both fences created signaled
(vk::FenceCreateFlagBits::eSignaled), no image yet written. -/
def initialFrameState : FrameState :=
  { currentFrame := 0,
    inFlightFences := [true, true],
    imagesInFlight := [none, none, none],
    framebufferResized := false }

/-- The state after one successful frame that acquired image index 1:
used to exhibit the hazard scenario in which the same image index is
acquired again before Frame Slot 0's fence signals. -/
def frameAfterOne : FrameState :=
  (drawFrame initialFrameState VkResult.success 1 VkResult.success).2

/-- A framebuffer-size oracle reporting a constant non-minimized window. -/
def constSizes : Nat → Nat × Nat := fun _ => (800, 600)

/-- The 8-bit-per-channel sRGB surface format preferred by
chooseSwapchainSurfaceFormat. -/
def srgbFormat : SurfaceFormatKHR :=
  { format := eB8G8R8A8Srgb, colorSpace := eSrgbNonlinear }

/-! ## Theorems -/

/-- C1 counterexample: the surface-capability pair (minImageCount = 2,
maxImageCount = 2) is valid (maxImageCount ≥ minImageCount), yet the
requested image count is clamped down to 2, so the claimed strict bound
minImageCount < requested fails. -/
theorem C1_counterexample :
    (let caps : SurfaceCapabilitiesKHR :=
      { minImageCount := 2, maxImageCount := 2,
        currentExtent := ⟨0, 0⟩, minImageExtent := ⟨0, 0⟩,
        maxImageExtent := ⟨0, 0⟩ }
     (caps.maxImageCount = 0 ∨ caps.minImageCount ≤ caps.maxImageCount) ∧
      ¬ caps.minImageCount < swapchainRequestedImageCount caps) := by
  constructor
  · right; decide
  · decide

/-- C1 (amended): for every valid surface-capability pair (maxImageCount
= 0 or maxImageCount ≥ minImageCount) with minImageCount + 1 not
overflowing uint32, the requested image count satisfies
minImageCount ≤ requested ≤ max(maxImageCount, requested), and
maxImageCount = 0 means no upper bound applies: the request is exactly
minImageCount + 1. -/
theorem C1_requested_image_count_bounds (caps : SurfaceCapabilitiesKHR)
    (hvalid : caps.maxImageCount = 0 ∨ caps.minImageCount ≤ caps.maxImageCount)
    (hnoOverflow : caps.minImageCount + 1 ≤ UINT32_MAX) :
    caps.minImageCount ≤ swapchainRequestedImageCount caps ∧
    swapchainRequestedImageCount caps ≤
      max caps.maxImageCount (swapchainRequestedImageCount caps) ∧
    (caps.maxImageCount = 0 →
      swapchainRequestedImageCount caps = caps.minImageCount + 1) := by
  have hm : (caps.minImageCount + 1) % (UINT32_MAX + 1) = caps.minImageCount + 1 :=
    Nat.mod_eq_of_lt (Nat.lt_succ_of_le hnoOverflow)
  have key : swapchainRequestedImageCount caps =
      if caps.maxImageCount > 0 ∧ caps.minImageCount + 1 > caps.maxImageCount
      then caps.maxImageCount else caps.minImageCount + 1 := by
    simp only [swapchainRequestedImageCount]
    rw [hm]
  refine ⟨?_, Nat.le_max_right _ _, ?_⟩
  · rw [key]
    split
    · next h => omega
    · next h => omega
  · intro h0
    rw [key, h0]
    simp

/-- C1 witness: at (minImageCount = 2, maxImageCount = 0) the amended
bounds hold and the request is 3. -/
theorem C1_witness :
    (let caps : SurfaceCapabilitiesKHR :=
      { minImageCount := 2, maxImageCount := 0,
        currentExtent := ⟨0, 0⟩, minImageExtent := ⟨0, 0⟩,
        maxImageExtent := ⟨0, 0⟩ }
     caps.minImageCount ≤ swapchainRequestedImageCount caps ∧
     swapchainRequestedImageCount caps ≤
       max caps.maxImageCount (swapchainRequestedImageCount caps) ∧
     (caps.maxImageCount = 0 →
       swapchainRequestedImageCount caps = caps.minImageCount + 1)) :=
  C1_requested_image_count_bounds _ (Or.inl rfl) (by decide)

/-- stdClamp lands in [lo, hi] whenever lo ≤ hi. -/
theorem stdClamp_mem (v lo hi : Nat) (h : lo ≤ hi) :
    lo ≤ stdClamp v lo hi ∧ stdClamp v lo hi ≤ hi := by
  unfold stdClamp
  split
  · omega
  · split <;> omega

/-- C2 counterexample: a capabilities value whose current extent is
defined (width ≠ UINT32_MAX) but lies below minImageExtent is returned
unchanged by chooseSwapchainExtent, so the returned extent is not within
[minImageExtent, maxImageExtent]. -/
theorem C2_counterexample :
    (let caps : SurfaceCapabilitiesKHR :=
      { minImageCount := 1, maxImageCount := 0,
        currentExtent := ⟨5, 5⟩, minImageExtent := ⟨10, 10⟩,
        maxImageExtent := ⟨20, 20⟩ }
     ¬ caps.minImageExtent.width ≤ (chooseSwapchainExtent caps 15 15).width) := by
  decide

/-- C2 (amended): when the surface reports an undefined current extent
(width = UINT32_MAX), the extent returned by chooseSwapchainExtent is
the window's framebuffer pixel size clamped componentwise into
[minImageExtent, maxImageExtent], hence (for minImageExtent ≤
maxImageExtent componentwise) lies within that range; when the current
extent is defined it is returned unchanged, so it lies in the range only
if the capabilities already place it there. -/
theorem C2_extent_clamped (caps : SurfaceCapabilitiesKHR) (fbW fbH : Nat)
    (hW : caps.minImageExtent.width ≤ caps.maxImageExtent.width)
    (hH : caps.minImageExtent.height ≤ caps.maxImageExtent.height) :
    (caps.currentExtent.width = UINT32_MAX →
      chooseSwapchainExtent caps fbW fbH =
        { width := stdClamp fbW caps.minImageExtent.width caps.maxImageExtent.width,
          height := stdClamp fbH caps.minImageExtent.height caps.maxImageExtent.height } ∧
      caps.minImageExtent.width ≤ (chooseSwapchainExtent caps fbW fbH).width ∧
      (chooseSwapchainExtent caps fbW fbH).width ≤ caps.maxImageExtent.width ∧
      caps.minImageExtent.height ≤ (chooseSwapchainExtent caps fbW fbH).height ∧
      (chooseSwapchainExtent caps fbW fbH).height ≤ caps.maxImageExtent.height) ∧
    (caps.currentExtent.width ≠ UINT32_MAX →
      chooseSwapchainExtent caps fbW fbH = caps.currentExtent) := by
  constructor
  · intro hdef
    have he : chooseSwapchainExtent caps fbW fbH =
        { width := stdClamp fbW caps.minImageExtent.width caps.maxImageExtent.width,
          height := stdClamp fbH caps.minImageExtent.height caps.maxImageExtent.height } := by
      simp [chooseSwapchainExtent, hdef]
    refine ⟨he, ?_, ?_, ?_, ?_⟩ <;> rw [he]
    · exact (stdClamp_mem fbW _ _ hW).1
    · exact (stdClamp_mem fbW _ _ hW).2
    · exact (stdClamp_mem fbH _ _ hH).1
    · exact (stdClamp_mem fbH _ _ hH).2
  · intro hdef
    simp [chooseSwapchainExtent, hdef]

/-- C2 witness: with an undefined current extent, framebuffer size
15×25 and extent range [10,20]², the clamped extent facts hold. -/
theorem C2_witness :
    (let caps : SurfaceCapabilitiesKHR :=
      { minImageCount := 1, maxImageCount := 0,
        currentExtent := ⟨UINT32_MAX, 300⟩, minImageExtent := ⟨10, 10⟩,
        maxImageExtent := ⟨20, 20⟩ }
     (caps.currentExtent.width = UINT32_MAX →
      chooseSwapchainExtent caps 15 25 =
        { width := stdClamp 15 caps.minImageExtent.width caps.maxImageExtent.width,
          height := stdClamp 25 caps.minImageExtent.height caps.maxImageExtent.height } ∧
      caps.minImageExtent.width ≤ (chooseSwapchainExtent caps 15 25).width ∧
      (chooseSwapchainExtent caps 15 25).width ≤ caps.maxImageExtent.width ∧
      caps.minImageExtent.height ≤ (chooseSwapchainExtent caps 15 25).height ∧
      (chooseSwapchainExtent caps 15 25).height ≤ caps.maxImageExtent.height) ∧
     (caps.currentExtent.width ≠ UINT32_MAX →
      chooseSwapchainExtent caps 15 25 = caps.currentExtent)) :=
  C2_extent_clamped _ 15 25 (by decide) (by decide)

/-- The format-selection predicate holds exactly at srgbFormat. -/
theorem formatPred_iff (sf : SurfaceFormatKHR) :
    (sf.format == eB8G8R8A8Srgb && sf.colorSpace == eSrgbNonlinear) = true ↔
      sf = srgbFormat := by
  cases sf
  simp only [Bool.and_eq_true, beq_iff_eq, srgbFormat, SurfaceFormatKHR.mk.injEq]

/-- If the sRGB format is among the supported formats, find? returns it. -/
theorem find?_srgb_of_mem (l : List SurfaceFormatKHR) (h : srgbFormat ∈ l) :
    l.find? (fun sf =>
      sf.format == eB8G8R8A8Srgb && sf.colorSpace == eSrgbNonlinear) =
        some srgbFormat := by
  induction l with
  | nil => cases h
  | cons a t ih =>
    by_cases ha : a = srgbFormat
    · subst ha
      have hp : (srgbFormat.format == eB8G8R8A8Srgb &&
          srgbFormat.colorSpace == eSrgbNonlinear) = true := by decide
      simp [List.find?, hp]
    · have ht : srgbFormat ∈ t := by
        rcases List.mem_cons.mp h with h1 | h2
        · exact absurd h1.symm ha
        · exact h2
      have hp : (a.format == eB8G8R8A8Srgb &&
          a.colorSpace == eSrgbNonlinear) = false := by
        cases hb : (a.format == eB8G8R8A8Srgb && a.colorSpace == eSrgbNonlinear)
        · rfl
        · exact absurd ((formatPred_iff a).mp hb) ha
      simp only [List.find?, hp]
      exact ih ht

/-- If the sRGB format is not among the supported formats, find? fails. -/
theorem find?_srgb_of_not_mem (l : List SurfaceFormatKHR) (h : srgbFormat ∉ l) :
    l.find? (fun sf =>
      sf.format == eB8G8R8A8Srgb && sf.colorSpace == eSrgbNonlinear) = none := by
  rw [List.find?_eq_none]
  intro x hx hp
  exact h ((formatPred_iff x).mp hp ▸ hx)

/-- If mailbox is among the supported present modes, find? returns it. -/
theorem find?_mailbox_of_mem (l : List Nat) (h : eMailbox ∈ l) :
    l.find? (fun m => m == eMailbox) = some eMailbox := by
  induction l with
  | nil => cases h
  | cons a t ih =>
    by_cases ha : a = eMailbox
    · subst ha
      simp [List.find?]
    · have ht : eMailbox ∈ t := by
        rcases List.mem_cons.mp h with h1 | h2
        · exact absurd h1.symm ha
        · exact h2
      have hp : (a == eMailbox) = false := by
        simp [ha]
      simp only [List.find?, hp]
      exact ih ht

/-- C8: swapchain creation selects the B8G8R8A8 sRGB / sRGB-nonlinear
format when any supported format matches it and otherwise the first
supported format, and selects the mailbox present mode when supported
and otherwise FIFO. -/
theorem C8_format_and_present_mode (surfaceFormats : List SurfaceFormatKHR)
    (presentModes : List Nat) (hne : surfaceFormats ≠ []) :
    (srgbFormat ∈ surfaceFormats →
      chooseSwapchainSurfaceFormat surfaceFormats = some srgbFormat) ∧
    (srgbFormat ∉ surfaceFormats →
      chooseSwapchainSurfaceFormat surfaceFormats =
        some (surfaceFormats.head hne)) ∧
    (eMailbox ∈ presentModes →
      chooseSwapchainPresentMode presentModes = eMailbox) ∧
    (eMailbox ∉ presentModes →
      chooseSwapchainPresentMode presentModes = eFifo) := by
  refine ⟨?_, ?_, ?_, ?_⟩
  · intro h
    simp only [chooseSwapchainSurfaceFormat, find?_srgb_of_mem _ h]
  · intro h
    simp only [chooseSwapchainSurfaceFormat, find?_srgb_of_not_mem _ h]
    exact List.head?_eq_head hne
  · intro h
    simp only [chooseSwapchainPresentMode, find?_mailbox_of_mem _ h]
  · intro h
    have : presentModes.find? (fun m => m == eMailbox) = none := by
      rw [List.find?_eq_none]
      intro x hx hp
      exact h (beq_iff_eq.mp hp ▸ hx)
    simp only [chooseSwapchainPresentMode, this]

/-- C8 witness: with formats [⟨44,0⟩, srgb] the sRGB format is chosen,
and with modes [0, 1, 2] mailbox is chosen. -/
theorem C8_witness :
    (srgbFormat ∈ [⟨44, 0⟩, srgbFormat] →
      chooseSwapchainSurfaceFormat [⟨44, 0⟩, srgbFormat] = some srgbFormat) ∧
    (srgbFormat ∉ [⟨44, 0⟩, srgbFormat] →
      chooseSwapchainSurfaceFormat [⟨44, 0⟩, srgbFormat] =
        some (List.head [⟨44, 0⟩, srgbFormat] (by simp))) ∧
    (eMailbox ∈ [0, 1, 2] → chooseSwapchainPresentMode [0, 1, 2] = eMailbox) ∧
    (eMailbox ∉ [0, 1, 2] → chooseSwapchainPresentMode [0, 1, 2] = eFifo) :=
  C8_format_and_present_mode [⟨44, 0⟩, srgbFormat] [0, 1, 2] (by simp)

/-- drawFrame on an out-of-date acquire result: wait on the slot's fence,
acquire, recreate; the only state change is the waited-on fence being
signaled. -/
theorem drawFrame_outOfDate (s : FrameState) (i : Nat) (presRes : VkResult) :
    drawFrame s VkResult.errorOutOfDateKHR i presRes =
      ([Ev.waitFence s.currentFrame, Ev.acquireImage s.currentFrame,
        Ev.recreateSwapchain],
       { s with inFlightFences := s.inFlightFences.set s.currentFrame true }) := rfl

/-- drawFrame on an acquire result that is neither success, suboptimal
nor out-of-date: wait, acquire, throw. -/
theorem drawFrame_acq_error (s : FrameState) (i : Nat) (presRes : VkResult) :
    drawFrame s VkResult.otherError i presRes =
      ([Ev.waitFence s.currentFrame, Ev.acquireImage s.currentFrame,
        Ev.throwResultException],
       { s with inFlightFences := s.inFlightFences.set s.currentFrame true }) := rfl

/-- drawFrame on a successful or suboptimal acquire takes the
submit-and-present path. -/
theorem drawFrame_acq_ok (s : FrameState) (acqRes : VkResult) (i : Nat)
    (presRes : VkResult)
    (hacq : acqRes = VkResult.success ∨ acqRes = VkResult.suboptimalKHR) :
    drawFrame s acqRes i presRes = drawFrameSubmitPath s i presRes := by
  rcases hacq with h | h <;> subst h <;> rfl

/-- The event trace of the submit-and-present path. -/
theorem submitPath_trace (s : FrameState) (i : Nat) (presRes : VkResult) :
    (drawFrameSubmitPath s i presRes).1 =
      [Ev.waitFence s.currentFrame, Ev.acquireImage s.currentFrame] ++
      (match s.imagesInFlight.getD i none with
        | some slot => [Ev.waitFence slot]
        | none => []) ++
      [Ev.resetFence s.currentFrame, Ev.submitCmd i s.currentFrame,
        Ev.presentImage i] ++
      (if presRes = VkResult.errorOutOfDateKHR ∨ presRes = VkResult.suboptimalKHR ∨
          s.framebufferResized = true then
        [Ev.recreateSwapchain]
      else if presRes = VkResult.success then []
      else [Ev.throwResultException]) := by
  cases hm : s.imagesInFlight[i]? with
  | none =>
    cases presRes <;> cases hfb : s.framebufferResized <;>
      simp [drawFrameSubmitPath, List.getD_eq_getElem?_getD, hm, hfb]
  | some v =>
    cases v with
    | none =>
      cases presRes <;> cases hfb : s.framebufferResized <;>
        simp [drawFrameSubmitPath, List.getD_eq_getElem?_getD, hm, hfb]
    | some slot =>
      cases presRes <;> cases hfb : s.framebufferResized <;>
        simp [drawFrameSubmitPath, List.getD_eq_getElem?_getD, hm, hfb]

/-- The post-state of the submit-and-present path. -/
theorem submitPath_state (s : FrameState) (i : Nat) (presRes : VkResult) :
    (drawFrameSubmitPath s i presRes).2 =
      { currentFrame :=
          if presRes = VkResult.success ∧ s.framebufferResized = false
          then (s.currentFrame + 1) % MAX_CONCURRENT_FRAMES
          else s.currentFrame,
        inFlightFences :=
          (match s.imagesInFlight.getD i none with
            | some slot => (s.inFlightFences.set s.currentFrame true).set slot true
            | none => s.inFlightFences.set s.currentFrame true).set
              s.currentFrame false,
        imagesInFlight := s.imagesInFlight.set i (some s.currentFrame),
        framebufferResized := false } := by
  cases hm : s.imagesInFlight[i]? with
  | none =>
    cases presRes <;> cases hfb : s.framebufferResized <;>
      simp [drawFrameSubmitPath, List.getD_eq_getElem?_getD, hm, hfb]
  | some v =>
    cases v with
    | none =>
      cases presRes <;> cases hfb : s.framebufferResized <;>
        simp [drawFrameSubmitPath, List.getD_eq_getElem?_getD, hm, hfb]
    | some slot =>
      cases presRes <;> cases hfb : s.framebufferResized <;>
        simp [drawFrameSubmitPath, List.getD_eq_getElem?_getD, hm, hfb]

/-- C3: an out-of-date acquire result aborts the frame iteration: the
trace is exactly fence wait, acquire, recreation — hence exactly one
recreation and no submit and no present; a suboptimal acquire result is
treated as success (it submits, and triggers no recreation when the
present result is success and no resize is flagged); and two
out-of-date acquires in a row yield exactly two recreations with
nothing submitted or presented. -/
theorem C3_acquire_out_of_date_aborts (s : FrameState) (i i2 : Nat)
    (presRes presRes2 : VkResult) :
    ((drawFrame s VkResult.errorOutOfDateKHR i presRes).1 =
      [Ev.waitFence s.currentFrame, Ev.acquireImage s.currentFrame,
        Ev.recreateSwapchain]) ∧
    ((drawFrame s VkResult.errorOutOfDateKHR i presRes).1.count
      Ev.recreateSwapchain = 1) ∧
    (∀ img slot, Ev.submitCmd img slot ∉
      (drawFrame s VkResult.errorOutOfDateKHR i presRes).1) ∧
    (∀ img, Ev.presentImage img ∉
      (drawFrame s VkResult.errorOutOfDateKHR i presRes).1) ∧
    (presRes = VkResult.success → s.framebufferResized = false →
      Ev.recreateSwapchain ∉
        (drawFrame s VkResult.suboptimalKHR i presRes).1 ∧
      Ev.submitCmd i s.currentFrame ∈
        (drawFrame s VkResult.suboptimalKHR i presRes).1) ∧
    (((drawFrame s VkResult.errorOutOfDateKHR i presRes).1 ++
      (drawFrame (drawFrame s VkResult.errorOutOfDateKHR i presRes).2
        VkResult.errorOutOfDateKHR i2 presRes2).1).count
          Ev.recreateSwapchain = 2) ∧
    (∀ img slot,
      Ev.submitCmd img slot ∉
        (drawFrame s VkResult.errorOutOfDateKHR i presRes).1 ++
        (drawFrame (drawFrame s VkResult.errorOutOfDateKHR i presRes).2
          VkResult.errorOutOfDateKHR i2 presRes2).1 ∧
      Ev.presentImage img ∉
        (drawFrame s VkResult.errorOutOfDateKHR i presRes).1 ++
        (drawFrame (drawFrame s VkResult.errorOutOfDateKHR i presRes).2
          VkResult.errorOutOfDateKHR i2 presRes2).1) := by
  refine ⟨?_, ?_, ?_, ?_, ?_, ?_, ?_⟩
  · rw [drawFrame_outOfDate]
  · rw [drawFrame_outOfDate]
    simp [List.count_cons]
  · intro img slot
    rw [drawFrame_outOfDate]
    simp
  · intro img
    rw [drawFrame_outOfDate]
    simp
  · intro hp hfb
    subst hp
    rw [drawFrame_acq_ok _ _ _ _ (Or.inr rfl), submitPath_trace]
    cases hm : s.imagesInFlight[i]? with
    | none => simp [List.getD_eq_getElem?_getD, hm, hfb]
    | some v =>
      cases v with
      | none => simp [List.getD_eq_getElem?_getD, hm, hfb]
      | some slot => simp [List.getD_eq_getElem?_getD, hm, hfb]
  · rw [drawFrame_outOfDate, drawFrame_outOfDate]
    simp [List.count_cons]
  · intro img slot
    rw [drawFrame_outOfDate, drawFrame_outOfDate]
    constructor <;> simp

/-- C3 witness: from the initial state, a stale acquire yields exactly
the wait/acquire/recreate trace, and a suboptimal acquire with a clean
present submits without recreating. -/
theorem C3_witness :
    ((drawFrame initialFrameState VkResult.errorOutOfDateKHR 0
      VkResult.success).1 =
        [Ev.waitFence 0, Ev.acquireImage 0, Ev.recreateSwapchain]) ∧
    (Ev.recreateSwapchain ∉
      (drawFrame initialFrameState VkResult.suboptimalKHR 0 VkResult.success).1 ∧
     Ev.submitCmd 0 0 ∈
      (drawFrame initialFrameState VkResult.suboptimalKHR 0 VkResult.success).1) :=
  ⟨(C3_acquire_out_of_date_aborts initialFrameState 0 1 VkResult.success
      VkResult.success).1,
   (C3_acquire_out_of_date_aborts initialFrameState 0 1 VkResult.success
      VkResult.success).2.2.2.2.1 rfl rfl⟩

/-- C4: in an iteration that reaches the present call (acquire was
success or suboptimal), recreation occurs iff the present result is
out-of-date or suboptimal or the external resize flag is set; in that
case the resize flag is cleared and the recreation event comes
immediately after the present event, never before. -/
theorem C4_present_recreation_condition (s : FrameState) (acqRes : VkResult)
    (i : Nat) (presRes : VkResult)
    (hacq : acqRes = VkResult.success ∨ acqRes = VkResult.suboptimalKHR) :
    (Ev.recreateSwapchain ∈ (drawFrame s acqRes i presRes).1 ↔
      (presRes = VkResult.errorOutOfDateKHR ∨ presRes = VkResult.suboptimalKHR ∨
        s.framebufferResized = true)) ∧
    ((presRes = VkResult.errorOutOfDateKHR ∨ presRes = VkResult.suboptimalKHR ∨
        s.framebufferResized = true) →
      (drawFrame s acqRes i presRes).2.framebufferResized = false ∧
      ∃ pre, (drawFrame s acqRes i presRes).1 =
        pre ++ [Ev.presentImage i, Ev.recreateSwapchain]) := by
  rw [drawFrame_acq_ok _ _ _ _ hacq, submitPath_trace, submitPath_state]
  cases hm : s.imagesInFlight[i]? with
  | none =>
    cases presRes <;> cases hfb : s.framebufferResized <;>
      simp [List.getD_eq_getElem?_getD, hm, hfb] <;>
      exact ⟨[Ev.waitFence s.currentFrame, Ev.acquireImage s.currentFrame,
        Ev.resetFence s.currentFrame, Ev.submitCmd i s.currentFrame], by simp⟩
  | some v =>
    cases v with
    | none =>
      cases presRes <;> cases hfb : s.framebufferResized <;>
        simp [List.getD_eq_getElem?_getD, hm, hfb] <;>
        exact ⟨[Ev.waitFence s.currentFrame, Ev.acquireImage s.currentFrame,
          Ev.resetFence s.currentFrame, Ev.submitCmd i s.currentFrame], by simp⟩
    | some slot =>
      cases presRes <;> cases hfb : s.framebufferResized <;>
        simp [List.getD_eq_getElem?_getD, hm, hfb] <;>
        exact ⟨[Ev.waitFence s.currentFrame, Ev.acquireImage s.currentFrame,
          Ev.waitFence slot, Ev.resetFence s.currentFrame,
          Ev.submitCmd i s.currentFrame], by simp⟩

/-- C4 witness: from a state with the resize flag set, a successful
present still triggers recreation, clears the flag, and recreates right
after presenting. -/
theorem C4_witness :
    (let s : FrameState :=
      { currentFrame := 0, inFlightFences := [true, true],
        imagesInFlight := [none, none, none], framebufferResized := true }
     (Ev.recreateSwapchain ∈ (drawFrame s VkResult.success 0 VkResult.success).1 ↔
       (VkResult.success = VkResult.errorOutOfDateKHR ∨
         VkResult.success = VkResult.suboptimalKHR ∨
         s.framebufferResized = true)) ∧
     ((VkResult.success = VkResult.errorOutOfDateKHR ∨
         VkResult.success = VkResult.suboptimalKHR ∨
         s.framebufferResized = true) →
       (drawFrame s VkResult.success 0 VkResult.success).2.framebufferResized = false ∧
       ∃ pre, (drawFrame s VkResult.success 0 VkResult.success).1 =
         pre ++ [Ev.presentImage 0, Ev.recreateSwapchain])) :=
  C4_present_recreation_condition _ VkResult.success 0 VkResult.success (Or.inl rfl)

/-- C6: when the acquired image index was last written by Frame Slot
`slot` (imagesInFlight[imageIndex] holds that slot's fence), the
iteration waits on that fence strictly before the submit to that image
— the first five events are fence wait, acquire, hazard fence wait,
fence reset, submit — and at the end of the iteration that fence is
signaled (for slot distinct from the current Frame Slot, whose fence
the submit step reset).  The state is arbitrary, so this holds for any
Frame Slot count and any image count. -/
theorem C6_image_hazard_wait (s : FrameState) (acqRes : VkResult) (i : Nat)
    (presRes : VkResult)
    (hacq : acqRes = VkResult.success ∨ acqRes = VkResult.suboptimalKHR)
    (slot : Nat) (hslot : s.imagesInFlight.getD i none = some slot)
    (hlen : slot < s.inFlightFences.length) (hne : slot ≠ s.currentFrame) :
    ((drawFrame s acqRes i presRes).1.take 5 =
      [Ev.waitFence s.currentFrame, Ev.acquireImage s.currentFrame,
        Ev.waitFence slot, Ev.resetFence s.currentFrame,
        Ev.submitCmd i s.currentFrame]) ∧
    (drawFrame s acqRes i presRes).2.inFlightFences.getD slot false = true := by
  rw [drawFrame_acq_ok _ _ _ _ hacq]
  constructor
  · rw [submitPath_trace, hslot]
    simp
  · rw [submitPath_state, hslot]
    simp only [List.getD_eq_getElem?_getD]
    rw [List.getElem?_set_ne (Ne.symm hne),
      List.getElem?_set_self (by simpa using hlen)]
    rfl

/-- C6 witness: slot count 2, image count 3; image index 1 is acquired
by Frame Slot 0, then acquired again by Frame Slot 1 while Frame Slot
0's fence is still unsignaled — the second iteration waits on fence 0
before submitting, and fence 0 is signaled afterwards. -/
theorem C6_witness :
    (frameAfterOne.imagesInFlight.getD 1 none = some 0 ∧
     frameAfterOne.inFlightFences.getD 0 false = false ∧
     frameAfterOne.currentFrame = 1 ∧
     frameAfterOne.imagesInFlight.length = 3) ∧
    ((drawFrame frameAfterOne VkResult.success 1 VkResult.success).1.take 5 =
      [Ev.waitFence 1, Ev.acquireImage 1, Ev.waitFence 0, Ev.resetFence 1,
        Ev.submitCmd 1 1]) ∧
    (drawFrame frameAfterOne VkResult.success 1 VkResult.success).2.inFlightFences.getD
      0 false = true :=
  ⟨⟨by decide, by decide, by decide, by decide⟩,
   (C6_image_hazard_wait frameAfterOne VkResult.success 1 VkResult.success
      (Or.inl rfl) 0 (by decide) (by decide) (by decide)).1,
   (C6_image_hazard_wait frameAfterOne VkResult.success 1 VkResult.success
      (Or.inl rfl) 0 (by decide) (by decide) (by decide)).2⟩

/-- C7: the Frame Slot count MAX_CONCURRENT_FRAMES is 2; drawFrame keeps
currentFrame in {0, 1}; a fully successful iteration advances
currentFrame to (currentFrame + 1) mod 2; and two fully successful
iterations return to the starting slot (period 2), for any state and
hence any swapchain image count. -/
theorem C7_frame_slot_cycle (s : FrameState) (acqRes acqRes2 : VkResult)
    (i i2 : Nat) (presRes presRes2 : VkResult) :
    MAX_CONCURRENT_FRAMES = 2 ∧
    (s.currentFrame < 2 → (drawFrame s acqRes i presRes).2.currentFrame < 2) ∧
    ((acqRes = VkResult.success ∨ acqRes = VkResult.suboptimalKHR) →
      presRes = VkResult.success → s.framebufferResized = false →
      (drawFrame s acqRes i presRes).2.currentFrame = (s.currentFrame + 1) % 2) ∧
    (s.currentFrame < 2 →
      (acqRes = VkResult.success ∨ acqRes = VkResult.suboptimalKHR) →
      presRes = VkResult.success →
      (acqRes2 = VkResult.success ∨ acqRes2 = VkResult.suboptimalKHR) →
      presRes2 = VkResult.success → s.framebufferResized = false →
      (drawFrame (drawFrame s acqRes i presRes).2 acqRes2 i2
        presRes2).2.currentFrame = s.currentFrame) := by
  refine ⟨rfl, ?_, ?_, ?_⟩
  · intro h2
    cases acqRes with
    | success =>
      rw [drawFrame_acq_ok _ _ _ _ (Or.inl rfl), submitPath_state]
      simp only [MAX_CONCURRENT_FRAMES]
      split <;> omega
    | suboptimalKHR =>
      rw [drawFrame_acq_ok _ _ _ _ (Or.inr rfl), submitPath_state]
      simp only [MAX_CONCURRENT_FRAMES]
      split <;> omega
    | errorOutOfDateKHR =>
      rw [drawFrame_outOfDate]
      exact h2
    | otherError =>
      rw [drawFrame_acq_error]
      exact h2
  · intro hacq hp hfb
    rw [drawFrame_acq_ok _ _ _ _ hacq, submitPath_state]
    simp [hp, hfb, MAX_CONCURRENT_FRAMES]
  · intro h2 hacq hp hacq2 hp2 hfb
    rw [drawFrame_acq_ok _ _ _ _ hacq2, drawFrame_acq_ok _ _ _ _ hacq]
    simp only [submitPath_state]
    simp [hp, hp2, hfb, MAX_CONCURRENT_FRAMES]
    omega

/-- C7 witness: from the initial state (slot 0, image count 3), one
successful frame advances to slot 1, and a second returns to slot 0. -/
theorem C7_witness :
    MAX_CONCURRENT_FRAMES = 2 ∧
    (initialFrameState.currentFrame < 2 →
      (drawFrame initialFrameState VkResult.success 0
        VkResult.success).2.currentFrame < 2) ∧
    ((VkResult.success = VkResult.success ∨
        VkResult.success = VkResult.suboptimalKHR) →
      VkResult.success = VkResult.success →
      initialFrameState.framebufferResized = false →
      (drawFrame initialFrameState VkResult.success 0
        VkResult.success).2.currentFrame =
        (initialFrameState.currentFrame + 1) % 2) ∧
    (initialFrameState.currentFrame < 2 →
      (VkResult.success = VkResult.success ∨
        VkResult.success = VkResult.suboptimalKHR) →
      VkResult.success = VkResult.success →
      (VkResult.success = VkResult.success ∨
        VkResult.success = VkResult.suboptimalKHR) →
      VkResult.success = VkResult.success →
      initialFrameState.framebufferResized = false →
      (drawFrame (drawFrame initialFrameState VkResult.success 0
        VkResult.success).2 VkResult.success 2 VkResult.success).2.currentFrame =
        initialFrameState.currentFrame) :=
  C7_frame_slot_cycle initialFrameState VkResult.success VkResult.success 0 2
    VkResult.success VkResult.success

/-- C10: an iteration aborted by an out-of-date acquire leaves the
scheduler state intact: same current Frame Slot, same per-image fence
tracking, same resize flag, no fence reset happened, and the current
slot's fence — which the initial wait left signaled — remains signaled,
so the next iteration's initial fence wait returns without blocking. -/
theorem C10_out_of_date_preserves_slot (s : FrameState) (i : Nat)
    (presRes : VkResult) (hf : s.currentFrame < s.inFlightFences.length) :
    ((drawFrame s VkResult.errorOutOfDateKHR i presRes).2.currentFrame =
      s.currentFrame) ∧
    ((drawFrame s VkResult.errorOutOfDateKHR i presRes).2.imagesInFlight =
      s.imagesInFlight) ∧
    ((drawFrame s VkResult.errorOutOfDateKHR i presRes).2.framebufferResized =
      s.framebufferResized) ∧
    (∀ slot, Ev.resetFence slot ∉
      (drawFrame s VkResult.errorOutOfDateKHR i presRes).1) ∧
    ((drawFrame s VkResult.errorOutOfDateKHR i presRes).2.inFlightFences.getD
      ((drawFrame s VkResult.errorOutOfDateKHR i presRes).2.currentFrame)
      false = true) := by
  rw [drawFrame_outOfDate]
  refine ⟨rfl, rfl, rfl, ?_, ?_⟩
  · intro slot
    simp
  · simp only [List.getD_eq_getElem?_getD]
    rw [List.getElem?_set_self (by simpa using hf)]
    rfl

/-- C10 witness: from the initial state, the aborted iteration keeps
slot 0 with its fence signaled and resets nothing. -/
theorem C10_witness :
    ((drawFrame initialFrameState VkResult.errorOutOfDateKHR 0
      VkResult.success).2.currentFrame = initialFrameState.currentFrame) ∧
    ((drawFrame initialFrameState VkResult.errorOutOfDateKHR 0
      VkResult.success).2.imagesInFlight = initialFrameState.imagesInFlight) ∧
    ((drawFrame initialFrameState VkResult.errorOutOfDateKHR 0
      VkResult.success).2.framebufferResized =
        initialFrameState.framebufferResized) ∧
    (∀ slot, Ev.resetFence slot ∉
      (drawFrame initialFrameState VkResult.errorOutOfDateKHR 0
        VkResult.success).1) ∧
    ((drawFrame initialFrameState VkResult.errorOutOfDateKHR 0
      VkResult.success).2.inFlightFences.getD
      ((drawFrame initialFrameState VkResult.errorOutOfDateKHR 0
        VkResult.success).2.currentFrame) false = true) :=
  C10_out_of_date_preserves_slot initialFrameState 0 VkResult.success (by decide)

/-- If the minimization-wait loop terminates, some polled framebuffer
size within the fuel was componentwise nonzero, and the loop's events
are only size polls and event waits. -/
theorem pollLoop_sound (sizes : Nat → Nat × Nat) :
    ∀ fuel k tr, pollLoop sizes fuel k = some tr →
      (∃ j, k ≤ j ∧ j ≤ k + fuel ∧ (sizes j).1 ≠ 0 ∧ (sizes j).2 ≠ 0) ∧
      (∀ e ∈ tr, (∃ w h, e = REv.getFramebufferSize w h) ∨ e = REv.waitEvents) := by
  intro fuel
  induction fuel with
  | zero =>
    intro k tr h
    simp only [pollLoop] at h
    split at h
    · exact Option.noConfusion h
    · next hnz =>
      cases h
      push_neg at hnz
      exact ⟨⟨k, le_refl _, by omega, hnz.1, hnz.2⟩, by simp⟩
  | succ n ih =>
    intro k tr h
    simp only [pollLoop] at h
    split at h
    · cases hp : pollLoop sizes n (k + 1) with
      | none =>
        rw [hp] at h
        exact Option.noConfusion h
      | some tr2 =>
        rw [hp] at h
        simp only [Option.map_some', Option.some.injEq] at h
        obtain ⟨⟨j, hj1, hj2, hjw, hjh⟩, hall⟩ := ih (k + 1) tr2 hp
        refine ⟨⟨j, by omega, by omega, hjw, hjh⟩, ?_⟩
        intro e he
        rw [← h] at he
        rcases List.mem_cons.mp he with h1 | he2
        · exact Or.inl ⟨_, _, h1⟩
        · rcases List.mem_cons.mp he2 with h2 | he3
          · exact Or.inr h2
          · exact hall e he3
    · next hnz =>
      cases h
      push_neg at hnz
      exact ⟨⟨k, le_refl _, by omega, hnz.1, hnz.2⟩, by simp⟩

/-- C5: every terminating run of recreateSwapchain first polls the
framebuffer size until some poll is componentwise nonzero (only polls
and event waits happen in that phase), then waits for the device to go
idle, then runs the cleanup, and then rebuilds in exactly the order
swapchain, image views, render pass, graphics pipeline, framebuffers,
command buffers. -/
theorem C5_recreate_order (sizes : Nat → Nat × Nat)
    (fuel numFramebuffers numImageViews : Nat) (tr : List REv)
    (h : recreateSwapchainTrace sizes fuel numFramebuffers numImageViews =
      some tr) :
    (∃ k, k ≤ fuel ∧ (sizes k).1 ≠ 0 ∧ (sizes k).2 ≠ 0) ∧
    ∃ pollTr,
      (∀ e ∈ pollTr, (∃ w h2, e = REv.getFramebufferSize w h2) ∨
        e = REv.waitEvents) ∧
      tr = REv.getFramebufferSize (sizes 0).1 (sizes 0).2 :: pollTr ++
        [REv.deviceWaitIdle] ++ cleanupSwapchain numFramebuffers numImageViews ++
        [REv.createSwapchain, REv.createImageViews, REv.createRenderPass,
          REv.createGraphicsPipeline, REv.createFramebuffers,
          REv.createCommandBuffers] := by
  unfold recreateSwapchainTrace at h
  cases hp : pollLoop sizes fuel 0 with
  | none =>
    rw [hp] at h
    exact Option.noConfusion h
  | some ptr =>
    rw [hp] at h
    simp only [Option.map_some', Option.some.injEq] at h
    obtain ⟨⟨j, _, hj2, hw, hh⟩, hall⟩ := pollLoop_sound sizes fuel 0 ptr hp
    exact ⟨⟨j, by omega, hw, hh⟩, ptr, hall, h.symm⟩

/-- C5 witness: a window that is already non-minimized (800×600) needs
no waiting and produces the full fixed-order trace with one framebuffer
and one image view to destroy. -/
theorem C5_witness :
    (∃ k, k ≤ 0 ∧ (constSizes k).1 ≠ 0 ∧ (constSizes k).2 ≠ 0) ∧
    ∃ pollTr,
      (∀ e ∈ pollTr, (∃ w h2, e = REv.getFramebufferSize w h2) ∨
        e = REv.waitEvents) ∧
      [REv.getFramebufferSize 800 600, REv.deviceWaitIdle,
        REv.destroyFramebuffer, REv.freeCommandBuffers, REv.destroyPipeline,
        REv.destroyPipelineLayout, REv.destroyRenderPass, REv.destroyImageView,
        REv.destroySwapchainKHR, REv.createSwapchain, REv.createImageViews,
        REv.createRenderPass, REv.createGraphicsPipeline,
        REv.createFramebuffers, REv.createCommandBuffers] =
        REv.getFramebufferSize (constSizes 0).1 (constSizes 0).2 :: pollTr ++
          [REv.deviceWaitIdle] ++ cleanupSwapchain 1 1 ++
          [REv.createSwapchain, REv.createImageViews, REv.createRenderPass,
            REv.createGraphicsPipeline, REv.createFramebuffers,
            REv.createCommandBuffers] :=
  C5_recreate_order constSizes 0 1 1 _ rfl

/-- C9: the imagesInFlight array is sized once, by createSyncObjects, to
the swapchain image count at that time; recreateSwapchain leaves it
(length and entries) untouched, so the per-acquired-index access is in
bounds for every index of the recreated swapchain iff the new image
count does not exceed the initial one. -/
theorem C9_imagesInFlight_sized_once (s0 : AppSync) (newCount : Nat) :
    (recreateSwapchainS newCount (createSyncObjectsS s0)).imagesInFlight =
      (createSyncObjectsS s0).imagesInFlight ∧
    (createSyncObjectsS s0).imagesInFlight.length = s0.swapchainImageCount ∧
    ((∀ j < (recreateSwapchainS newCount
        (createSyncObjectsS s0)).swapchainImageCount,
        j < (recreateSwapchainS newCount
          (createSyncObjectsS s0)).imagesInFlight.length) ↔
      newCount ≤ s0.swapchainImageCount) := by
  refine ⟨rfl, by simp [createSyncObjectsS], ?_⟩
  simp only [recreateSwapchainS, createSyncObjectsS, List.length_replicate]
  constructor
  · intro h
    by_cases hc : newCount = 0
    · omega
    · have := h (newCount - 1) (by omega)
      omega
  · intro h j hj
    omega

end VulkanApp
